import Mathlib

/-!
Shallow embedding of `src/modules/hunting/apiserver.py` (kube-hunter API
server hunters) and proofs about the claims of its specification.

The module defines two hunters over an `OpenPortEvent`:
* `AccessApiServerViaServiceAccountToken` (passive): reads the mounted
  service-account token, then probes `GET /api`, `GET /api/v1/pods` and
  `GET /api/v1/namespaces/default/pods`, publishing one vulnerability event
  per successful probe.
* `AccessApiServerViaServiceAccountTokenActive` (active): reads the token and
  runs the two pod-list probes (which also parse the JSON body into a
  namespace→pod-name dict); its `execute` publishes nothing.

External effects (the filesystem read, `requests.get` and `json.loads`) are
modelled by explicit inputs: the token file content (`Option String`, `none`
meaning the `open` raises `IOError`), an HTTP outcome per probe
(`Option Response`, `none` meaning `requests.exceptions.ConnectionError`),
and, attached to each response body, the semantic outcome of `json.loads`
on it (valid JSON with an `"items"` list of pods, valid JSON without an
`"items"` key, or not JSON at all).  The code runs under Python 3, where
`res.content` is a `bytes` value and `''` is a `str` literal; Python values
of both types appear in comparisons and evidence fields, so they are
embedded as one type `PyVal` with Python 3's cross-type `==`/`!=` semantics.
-/

namespace KubeHunter

/-- A Python value as it appears in the hunters' evidence fields and body
comparisons: either a `str` or a `bytes` value (bytes modelled as `List Nat`). -/
inductive PyVal where
  | pyStr (s : String)
  | pyBytes (b : List Nat)
deriving DecidableEq, Repr

/-- Python 3 `==` restricted to the `str`/`bytes` values the source compares:
two values of different types are never equal (`b'' == ''` is `False`). -/
def pyEq : PyVal → PyVal → Bool
  | .pyStr a, .pyStr b => a == b
  | .pyBytes a, .pyBytes b => a == b
  | _, _ => false

/-- Python 3 `!=`, the negation of `==`. -/
def pyNe (a b : PyVal) : Bool := !(pyEq a b)

/-- Semantic outcome of `json.loads(res.content)` followed by the source's
accesses `parsed["items"]` / `item["metadata"]["namespace"]` /
`item["metadata"]["name"]`:
* `invalid` — the body is not valid JSON, `json.loads` raises `ValueError`;
* `noItems` — valid JSON but `parsed["items"]` raises `KeyError`;
* `items l` — an items list, each item read as (namespace, name). -/
inductive BodyJson where
  | invalid
  | noItems
  | items (l : List (String × String))
deriving DecidableEq, Repr

/-- A received HTTP response: `status_code`, raw body bytes `content`, and
the JSON-parse outcome of the body (used only by the active hunter). -/
structure Response where
  status_code : Nat
  content : List Nat
  jsonBody : BodyJson
deriving DecidableEq, Repr

/-- Outcome of one `requests.get`/`delete`/`patch` call:
`none` models `requests.exceptions.ConnectionError` (DNS failure, refused
connection, ...), `some r` a received response. -/
abbrev HttpOutcome := Option Response

/-- Python exceptions that can escape a probe method (only the active
hunter's JSON parsing can raise past the `except ConnectionError` clause). -/
inductive PyExc where
  | valueError
  | keyError
deriving DecidableEq, Repr

/-- The source's success verdict, written in every probe method as
`res.status_code == 200 and res.content != ''`. -/
def successVerdict (res : Response) : Bool :=
  res.status_code == 200 && pyNe (.pyBytes res.content) (.pyStr "")

/-- Verdict of a probe step given its HTTP outcome: a transport failure is
caught and returned as `False`. -/
def stepVerdict : HttpOutcome → Bool
  | some res => successVerdict res
  | none => false

/-- The target of a hunter: host and port of the matched `OpenPortEvent`. -/
structure Target where
  host : String
  port : Nat
deriving DecidableEq, Repr

/-- HTTP method of an issued request. -/
inductive Method where
  | GET
  | POST
  | DELETE
  | PATCH
deriving DecidableEq, Repr

/-- A request issued by a probe: method and full URL. -/
structure Request where
  method : Method
  url : String
deriving DecidableEq, Repr

/-- `"https://{host}:{port}" + path`, the URL scheme of every probe. -/
def urlOf (t : Target) (path : String) : String :=
  "https://" ++ t.host ++ ":" ++ toString t.port ++ path

/-- The `GET /api` request. -/
def reqApi (t : Target) : Request := ⟨.GET, urlOf t "/api"⟩

/-- The `GET /api/v1/pods` request. -/
def reqPodsAll (t : Target) : Request := ⟨.GET, urlOf t "/api/v1/pods"⟩

/-- The `GET /api/v1/namespaces/default/pods` request. -/
def reqPodsDefault (t : Target) : Request :=
  ⟨.GET, urlOf t "/api/v1/namespaces/default/pods"⟩

/-- Category of a vulnerability (from `core.types`). -/
inductive Category where
  | RemoteCodeExec
  | AccessRisk
  | InformationDisclosure
deriving DecidableEq, Repr

/-- The vulnerability classes declared in the module, one per probe kind. -/
inductive FindingKind where
  | ServerApiAccess
  | ServiceAccountTokenAccess
  | PodListUnderDefaultNamespace
  | PodListUnderAllNamespaces
  | ListAllNamespaces
  | CreateARole
  | CreateAClusterRole
  | PatchARole
  | PatchAClusterRole
  | DeleteARole
  | DeleteAClusterRole
deriving DecidableEq, Repr

/-- The `category=` argument of each vulnerability class constructor. -/
def findingCategory : FindingKind → Category
  | .ServerApiAccess => .RemoteCodeExec
  | .ServiceAccountTokenAccess => .AccessRisk
  | _ => .InformationDisclosure

/-- The `name=` argument of each vulnerability class constructor. -/
def findingName : FindingKind → String
  | .ServerApiAccess => "Accessed to server API"
  | .ServiceAccountTokenAccess => "Read access to pod's service account token"
  | .PodListUnderDefaultNamespace => "Access to the pods list under default namespace"
  | .PodListUnderAllNamespaces => "Access to the pods list under ALL namespaces"
  | .ListAllNamespaces => "Access to the all namespaces list"
  | .CreateARole => "Created a role"
  | .CreateAClusterRole => "Created a cluster role"
  | .PatchARole => "Patched a role"
  | .PatchAClusterRole => "Patched a cluster role"
  | .DeleteARole => "Deleted a role"
  | .DeleteAClusterRole => "Deleted a cluster role"

/-- A published vulnerability event: its kind (fixing name and category) and
the `evidence` attribute set by the constructor. -/
structure Finding where
  kind : FindingKind
  evidence : PyVal
deriving DecidableEq, Repr

/-- Number of findings of a given kind in a published list. -/
def countKind (k : FindingKind) (fs : List Finding) : Nat :=
  (fs.filter (fun f => f.kind == k)).length

namespace Passive

/-- The instance fields of `AccessApiServerViaServiceAccountToken`, all
initialised to the `str` literal `''` in `__init__`. -/
structure State where
  api_server_evidence : PyVal
  service_account_token_evidence : PyVal
  pod_list_under_default_namespace_evidence : PyVal
  pod_list_under_all_namespaces_evidence : PyVal
deriving DecidableEq, Repr

/-- `__init__`: every evidence field starts as the empty `str`. -/
def initState : State :=
  ⟨.pyStr "", .pyStr "", .pyStr "", .pyStr ""⟩

/-- `get_service_account_token`: read the mounted token file; on success
store its text and return `True`, on `IOError` return `False`.
`tokenFile = none` models the read raising `IOError`. -/
def get_service_account_token (st : State) (tokenFile : Option String) :
    State × Bool :=
  match tokenFile with
  | some data => ({ st with service_account_token_evidence := .pyStr data }, true)
  | none => (st, false)

/-- `access_api_server`: `GET /api`; on a received response store
`res.content` into `api_server_evidence` (before any status check) and
return the success verdict; on `ConnectionError` return `False`. -/
def access_api_server (st : State) (out : HttpOutcome) : State × Bool :=
  match out with
  | some res =>
      ({ st with api_server_evidence := .pyBytes res.content }, successVerdict res)
  | none => (st, false)

/-- `get_pods_list_under_default_namespace`: `GET
/api/v1/namespaces/default/pods`; stores `res.content` into its evidence
field on any received response and returns the success verdict; on
`ConnectionError` returns `False`. -/
def get_pods_list_under_default_namespace (st : State) (out : HttpOutcome) :
    State × Bool :=
  match out with
  | some res =>
      ({ st with pod_list_under_default_namespace_evidence := .pyBytes res.content },
       successVerdict res)
  | none => (st, false)

/-- `get_pods_list_under_all_namespace`: `GET /api/v1/pods`; stores
`res.content` into its evidence field on any received response and returns
the success verdict; on `ConnectionError` returns `False`. -/
def get_pods_list_under_all_namespace (st : State) (out : HttpOutcome) :
    State × Bool :=
  match out with
  | some res =>
      ({ st with pod_list_under_all_namespaces_evidence := .pyBytes res.content },
       successVerdict res)
  | none => (st, false)

/-- External inputs of one passive run: the target, the token file, and the
HTTP outcome of each of the three probes. -/
structure World where
  target : Target
  tokenFile : Option String
  apiResp : HttpOutcome
  podsAllResp : HttpOutcome
  podsDefaultResp : HttpOutcome
deriving DecidableEq, Repr

/-- Result of one passive run: the final instance state, the events
published via `publish_event`, and the HTTP requests attempted. -/
structure Run where
  state : State
  findings : List Finding
  requests : List Request
deriving DecidableEq, Repr

/-- `AccessApiServerViaServiceAccountToken.execute`: if the token read
succeeds, publish `ServiceAccountTokenAccess` and run the three probes in
order (`/api`, `/api/v1/pods`, `/api/v1/namespaces/default/pods`), each
`if` independent, publishing the step's vulnerability on a `True` verdict;
if the token read fails, do nothing. -/
def execute (w : World) : Run :=
  let st0 := initState
  let r1 := get_service_account_token st0 w.tokenFile
  if r1.2 then
    let f1 : List Finding :=
      [⟨.ServiceAccountTokenAccess, r1.1.service_account_token_evidence⟩]
    let r2 := access_api_server r1.1 w.apiResp
    let f2 : List Finding :=
      if r2.2 then [⟨.ServerApiAccess, r2.1.api_server_evidence⟩] else []
    let r3 := get_pods_list_under_all_namespace r2.1 w.podsAllResp
    let f3 : List Finding :=
      if r3.2 then
        [⟨.PodListUnderAllNamespaces, r3.1.pod_list_under_all_namespaces_evidence⟩]
      else []
    let r4 := get_pods_list_under_default_namespace r3.1 w.podsDefaultResp
    let f4 : List Finding :=
      if r4.2 then
        [⟨.PodListUnderDefaultNamespace,
          r4.1.pod_list_under_default_namespace_evidence⟩]
      else []
    ⟨r4.1, f1 ++ f2 ++ f3 ++ f4,
     [reqApi w.target, reqPodsAll w.target, reqPodsDefault w.target]⟩
  else ⟨r1.1, [], []⟩

end Passive

/-- Python `dict` assignment `d[k] = v`: replace the value of an existing
key in place, otherwise append the binding (dicts keep insertion order). -/
def dictInsert (d : List (String × String)) (k v : String) :
    List (String × String) :=
  match d with
  | [] => [(k, v)]
  | (k', v') :: rest =>
      if k' = k then (k, v) :: rest else (k', v') :: dictInsert rest k v

/-- Python `dict` lookup `d[k]` as an `Option`. -/
def dictGet (d : List (String × String)) (k : String) : Option String :=
  match d with
  | [] => none
  | (k', v') :: rest => if k' = k then some v' else dictGet rest k

namespace Active

/-- The instance fields of `AccessApiServerViaServiceAccountTokenActive`:
six evidence strings initialised to `''` and the
`namespaces_and_their_pod_names` dict initialised to `{}`. -/
structure State where
  api_server_evidence : PyVal
  service_account_token_evidence : PyVal
  all_namespaces_evidence : PyVal
  namespace_roles_evidence : PyVal
  all_roles_evidence : PyVal
  cluster_roles_evidence : PyVal
  namespaces_and_their_pod_names : List (String × String)
deriving DecidableEq, Repr

/-- `__init__` of the active hunter. -/
def initState : State :=
  ⟨.pyStr "", .pyStr "", .pyStr "", .pyStr "", .pyStr "", .pyStr "", []⟩

/-- `get_service_account_token` (active copy, identical to the passive one). -/
def get_service_account_token (st : State) (tokenFile : Option String) :
    State × Bool :=
  match tokenFile with
  | some data => ({ st with service_account_token_evidence := .pyStr data }, true)
  | none => (st, false)

/-- The `for item in parsed["items"]` loop shared by both pod-list methods:
`self.namespaces_and_their_pod_names[item.namespace] = item.name` for each
item in response order. -/
def insertPods (d : List (String × String)) (items : List (String × String)) :
    List (String × String) :=
  items.foldl (fun d it => dictInsert d it.1 it.2) d

/-- `get_pods_list_under_default_namespace` (active): `GET
/api/v1/namespaces/default/pods`, then `json.loads(res.content)` and the
items loop, then the success verdict.  Only `ConnectionError` is caught, so
a body that is not JSON with an `"items"` key raises past the method
(`ValueError` from `json.loads`, `KeyError` from `parsed["items"]`). -/
def get_pods_list_under_default_namespace (st : State) (out : HttpOutcome) :
    Except PyExc (State × Bool) :=
  match out with
  | none => .ok (st, false)
  | some res =>
      match res.jsonBody with
      | .invalid => .error .valueError
      | .noItems => .error .keyError
      | .items l =>
          .ok ({ st with namespaces_and_their_pod_names :=
                   insertPods st.namespaces_and_their_pod_names l },
               successVerdict res)

/-- `get_pods_list_under_all_namespace` (active): `GET /api/v1/pods` with
the same JSON parsing, items loop and exception behaviour. -/
def get_pods_list_under_all_namespace (st : State) (out : HttpOutcome) :
    Except PyExc (State × Bool) :=
  match out with
  | none => .ok (st, false)
  | some res =>
      match res.jsonBody with
      | .invalid => .error .valueError
      | .noItems => .error .keyError
      | .items l =>
          .ok ({ st with namespaces_and_their_pod_names :=
                   insertPods st.namespaces_and_their_pod_names l },
               successVerdict res)

/-- The request `delete_a_pod(pod_namespace, pod_name)` would issue:
`DELETE /api/v1/namespaces/{namespace}/pods/{name}`. -/
def delete_a_pod_request (t : Target) (pod_namespace pod_name : String) :
    Request :=
  ⟨.DELETE, urlOf t ("/api/v1/namespaces/" ++ pod_namespace ++ "/pods/" ++ pod_name)⟩

/-- `delete_a_pod`: issue the DELETE and return the success verdict; state
untouched, `ConnectionError` caught as `False`. -/
def delete_a_pod (st : State) (out : HttpOutcome) : State × Bool :=
  match out with
  | some res => (st, successVerdict res)
  | none => (st, false)

/-- The request `patch_a_pod(pod_namespace, pod_name)` would issue:
`PATCH /api/v1/namespaces/{namespace}/pods/{name}`. -/
def patch_a_pod_request (t : Target) (pod_namespace pod_name : String) :
    Request :=
  ⟨.PATCH, urlOf t ("/api/v1/namespaces/" ++ pod_namespace ++ "/pods/" ++ pod_name)⟩

/-- `patch_a_pod`: issue the PATCH (empty `patch_data`) and return the
success verdict; state untouched, `ConnectionError` caught as `False`. -/
def patch_a_pod (st : State) (out : HttpOutcome) : State × Bool :=
  match out with
  | some res => (st, successVerdict res)
  | none => (st, false)

/-- `get_all_namespaces`: `GET /api/v1/namespaces`, `json.loads` the body
(the items loop is commented out in the source), return the verdict; only
`ConnectionError` is caught, so a non-JSON body raises `ValueError`. -/
def get_all_namespaces (st : State) (out : HttpOutcome) :
    Except PyExc (State × Bool) :=
  match out with
  | none => .ok (st, false)
  | some res =>
      match res.jsonBody with
      | .invalid => .error .valueError
      | _ => .ok (st, successVerdict res)

/-- `get_roles_for_namespace(namespace)`: `GET .../namespaces/{ns}/roles`;
stores `res.content` into `namespace_roles_evidence` on any received
response and returns `res.content` if the verdict holds else `False`
(modelled as `Option`); `ConnectionError` yields `False`. -/
def get_roles_for_namespace (st : State) (out : HttpOutcome) :
    State × Option (List Nat) :=
  match out with
  | some res =>
      ({ st with namespace_roles_evidence := .pyBytes res.content },
       if successVerdict res then some res.content else none)
  | none => (st, none)

/-- `get_cluster_roles`: `GET .../clusterroles`; the source stores
`res.content` into `namespace_roles_evidence` (not `cluster_roles_evidence`)
and returns `res.content` if the verdict holds else `False`. -/
def get_cluster_roles (st : State) (out : HttpOutcome) :
    State × Option (List Nat) :=
  match out with
  | some res =>
      ({ st with namespace_roles_evidence := .pyBytes res.content },
       if successVerdict res then some res.content else none)
  | none => (st, none)

/-- `get_all_roles`: `GET .../roles`; the source stores `res.content` into
`namespace_roles_evidence` (not `all_roles_evidence`) and returns
`res.content` if the verdict holds else `False`. -/
def get_all_roles (st : State) (out : HttpOutcome) :
    State × Option (List Nat) :=
  match out with
  | some res =>
      ({ st with namespace_roles_evidence := .pyBytes res.content },
       if successVerdict res then some res.content else none)
  | none => (st, none)

/-- External inputs of one active run: the target, the token file, and the
HTTP outcomes of the two pod-list probes `execute` performs. -/
structure World where
  target : Target
  tokenFile : Option String
  podsAllResp : HttpOutcome
  podsDefaultResp : HttpOutcome
deriving DecidableEq, Repr

/-- Result of one active run: requests attempted, the final state (or the
escaped exception), and the events published (`execute` publishes none). -/
structure Run where
  requests : List Request
  outcome : Except PyExc State
  findings : List Finding
deriving Repr

/-- `AccessApiServerViaServiceAccountTokenActive.execute`: if the token read
succeeds, call `get_pods_list_under_all_namespace` then
`get_pods_list_under_default_namespace`; no `publish_event` call exists, so
no finding is ever published; an exception escaping a probe aborts the run. -/
def execute (w : World) : Run :=
  let r1 := get_service_account_token initState w.tokenFile
  if r1.2 then
    match get_pods_list_under_all_namespace r1.1 w.podsAllResp with
    | .error e => ⟨[reqPodsAll w.target], .error e, []⟩
    | .ok (st2, _) =>
        match get_pods_list_under_default_namespace st2 w.podsDefaultResp with
        | .error e => ⟨[reqPodsAll w.target, reqPodsDefault w.target], .error e, []⟩
        | .ok (st3, _) =>
            ⟨[reqPodsAll w.target, reqPodsDefault w.target], .ok st3, []⟩
  else ⟨[], .ok r1.1, []⟩

end Active

/-! ### Helper lemmas -/

/-- The findings a passive probe step contributes: one finding carrying the
response body when the verdict holds, none otherwise. -/
def stepFinding (k : FindingKind) (out : HttpOutcome) : List Finding :=
  match out with
  | some r => if successVerdict r then [⟨k, .pyBytes r.content⟩] else []
  | none => []

theorem countKind_nil (k : FindingKind) : countKind k [] = 0 := rfl

theorem countKind_append (k : FindingKind) (a b : List Finding) :
    countKind k (a ++ b) = countKind k a + countKind k b := by
  simp [countKind, List.filter_append]

theorem countKind_cons (k : FindingKind) (f : Finding) (fs : List Finding) :
    countKind k (f :: fs) =
      (if f.kind == k then 1 else 0) + countKind k fs := by
  simp only [countKind, List.filter_cons]
  split <;> simp [List.length_cons, Nat.add_comm]

theorem countKind_stepFinding_self (k : FindingKind) (out : HttpOutcome) :
    countKind k (stepFinding k out) = if stepVerdict out then 1 else 0 := by
  cases out with
  | none => rfl
  | some r =>
      simp only [stepFinding, stepVerdict]
      split <;> simp [countKind]

theorem countKind_stepFinding_ne (k k' : FindingKind) (out : HttpOutcome)
    (h : k' ≠ k) : countKind k (stepFinding k' out) = 0 := by
  cases out with
  | none => rfl
  | some r =>
      simp only [stepFinding]
      split
      · simp [countKind, h]
      · rfl

/-- Findings of a passive run with a readable token: the token finding
followed by the three probe steps' findings. -/
theorem passive_findings_some_token (t : Target) (tok : String)
    (api aAll aDef : HttpOutcome) :
    (Passive.execute ⟨t, some tok, api, aAll, aDef⟩).findings =
      ⟨.ServiceAccountTokenAccess, .pyStr tok⟩ ::
        (stepFinding .ServerApiAccess api ++
         stepFinding .PodListUnderAllNamespaces aAll ++
         stepFinding .PodListUnderDefaultNamespace aDef) := by
  cases api <;> cases aAll <;> cases aDef <;>
    simp [Passive.execute, Passive.get_service_account_token,
      Passive.access_api_server, Passive.get_pods_list_under_all_namespace,
      Passive.get_pods_list_under_default_namespace, stepFinding]

/-- Requests of a passive run with a readable token: all three probes are
attempted whatever their outcomes. -/
theorem passive_requests_some_token (t : Target) (tok : String)
    (api aAll aDef : HttpOutcome) :
    (Passive.execute ⟨t, some tok, api, aAll, aDef⟩).requests =
      [reqApi t, reqPodsAll t, reqPodsDefault t] := by
  simp [Passive.execute, Passive.get_service_account_token]

/-- The name of the last pod item for a given namespace in a response's
items list (`none` when no item has that namespace): later items win. -/
def lastPodFor (ns : String) : List (String × String) → Option String
  | [] => none
  | it :: rest =>
      match lastPodFor ns rest with
      | some n => some n
      | none => if it.1 = ns then some it.2 else none

theorem dictGet_dictInsert (d : List (String × String)) (k v n : String) :
    dictGet (dictInsert d k v) n = if k = n then some v else dictGet d n := by
  induction d with
  | nil => rfl
  | cons hd tl ih =>
      obtain ⟨k', v'⟩ := hd
      simp only [dictInsert, dictGet]
      by_cases hk : k' = k
      · rw [if_pos hk]
        simp only [dictGet]
        by_cases hn : k = n
        · rw [if_pos hn, if_pos hn]
        · have hk'n : ¬k' = n := fun h => hn (hk.symm.trans h)
          rw [if_neg hn, if_neg hn, if_neg hk'n]
      · rw [if_neg hk]
        simp only [dictGet, ih]
        by_cases hn : k' = n
        · have hkn : ¬k = n := fun h => hk (hn.trans h.symm)
          rw [if_pos hn, if_neg hkn, if_pos hn]
        · rw [if_neg hn, if_neg hn]

/-- The pod-items loop implements last-seen-wins: after inserting every
item, a namespace looks up to its last item's name, and to its previous
binding when the response has no item for it. -/
theorem dictGet_insertPods (items : List (String × String))
    (d : List (String × String)) (ns : String) :
    dictGet (Active.insertPods d items) ns =
      match lastPodFor ns items with
      | some n => some n
      | none => dictGet d ns := by
  induction items generalizing d with
  | nil => rfl
  | cons it rest ih =>
      show dictGet (Active.insertPods (dictInsert d it.1 it.2) rest) ns = _
      rw [ih]
      cases h : lastPodFor ns rest with
      | some n => simp [lastPodFor, h]
      | none =>
          simp only [lastPodFor, h, dictGet_dictInsert]
          by_cases hns : it.1 = ns <;> simp [hns]

/-- Under Python 3 the body check `res.content != ''` compares a `bytes`
value with a `str` value and is therefore always `True`, so the success
verdict collapses to the status-code test alone. -/
theorem successVerdict_eq_status (r : Response) :
    successVerdict r = (r.status_code == 200) := by
  simp [successVerdict, pyNe, pyEq]

theorem count_token_finding (t : Target) (tok : String)
    (api aAll aDef : HttpOutcome) :
    countKind .ServiceAccountTokenAccess
      (Passive.execute ⟨t, some tok, api, aAll, aDef⟩).findings = 1 := by
  rw [passive_findings_some_token, countKind_cons, countKind_append, countKind_append,
    countKind_stepFinding_ne _ _ _ (by simp), countKind_stepFinding_ne _ _ _ (by simp),
    countKind_stepFinding_ne _ _ _ (by simp)]
  rfl

theorem count_api_finding (t : Target) (tok : String)
    (api aAll aDef : HttpOutcome) :
    countKind .ServerApiAccess
      (Passive.execute ⟨t, some tok, api, aAll, aDef⟩).findings =
      if stepVerdict api then 1 else 0 := by
  rw [passive_findings_some_token, countKind_cons, countKind_append, countKind_append,
    countKind_stepFinding_self, countKind_stepFinding_ne _ _ _ (by simp),
    countKind_stepFinding_ne _ _ _ (by simp)]
  simp

theorem count_pods_all_finding (t : Target) (tok : String)
    (api aAll aDef : HttpOutcome) :
    countKind .PodListUnderAllNamespaces
      (Passive.execute ⟨t, some tok, api, aAll, aDef⟩).findings =
      if stepVerdict aAll then 1 else 0 := by
  rw [passive_findings_some_token, countKind_cons, countKind_append, countKind_append,
    countKind_stepFinding_self, countKind_stepFinding_ne _ _ _ (by simp),
    countKind_stepFinding_ne _ _ _ (by simp)]
  simp

theorem count_pods_default_finding (t : Target) (tok : String)
    (api aAll aDef : HttpOutcome) :
    countKind .PodListUnderDefaultNamespace
      (Passive.execute ⟨t, some tok, api, aAll, aDef⟩).findings =
      if stepVerdict aDef then 1 else 0 := by
  rw [passive_findings_some_token, countKind_cons, countKind_append, countKind_append,
    countKind_stepFinding_self, countKind_stepFinding_ne _ _ _ (by simp),
    countKind_stepFinding_ne _ _ _ (by simp)]
  simp

/-- The active hunter's `execute` publishes no finding, whatever the token
file and HTTP outcomes are. -/
theorem active_findings_eq_nil (w : Active.World) :
    (Active.execute w).findings = [] := by
  unfold Active.execute
  cases hq : (Active.get_service_account_token Active.initState w.tokenFile).2
  · simp only [hq, if_false, Bool.false_eq_true]
  · simp only [hq, if_true]
    split
    · rfl
    · split <;> rfl

/-- Every request the active hunter's `execute` attempts is a GET: the
run only ever calls the two pod-list probes. -/
theorem active_requests_all_GET (w : Active.World) :
    ((Active.execute w).requests.all (fun r => r.method == .GET)) = true := by
  unfold Active.execute
  cases hq : (Active.get_service_account_token Active.initState w.tokenFile).2
  · simp only [hq, if_false, Bool.false_eq_true]
    rfl
  · simp only [hq, if_true]
    split
    · simp [reqPodsAll]
    · split <;> simp [reqPodsAll, reqPodsDefault]

/-! ### Claim theorems -/

/-- C1: in every passive or active run in which reading the service-account
token file fails, `execute` publishes zero findings and attempts no HTTP
probe; in particular no `ServerApiAccess`, `PodListUnderAllNamespaces` or
`PodListUnderDefaultNamespace` finding is published in such a run. -/
theorem C1_token_failure_no_findings_no_probes (t ta : Target)
    (api aAll aDef pAll pDef : HttpOutcome) :
    (Passive.execute ⟨t, none, api, aAll, aDef⟩).findings = [] ∧
    (Passive.execute ⟨t, none, api, aAll, aDef⟩).requests = [] ∧
    (Active.execute ⟨ta, none, pAll, pDef⟩).findings = [] ∧
    (Active.execute ⟨ta, none, pAll, pDef⟩).requests = [] ∧
    countKind .ServerApiAccess
      (Passive.execute ⟨t, none, api, aAll, aDef⟩).findings = 0 ∧
    countKind .PodListUnderAllNamespaces
      (Passive.execute ⟨t, none, api, aAll, aDef⟩).findings = 0 ∧
    countKind .PodListUnderDefaultNamespace
      (Passive.execute ⟨t, none, api, aAll, aDef⟩).findings = 0 :=
  ⟨rfl, rfl, rfl, rfl, rfl, rfl, rfl⟩

/-- C2 counterexample: with the token readable and `GET /api` answered by a
status-200 response whose body is the EMPTY byte string, the passive run
still publishes a `ServerApiAccess` finding (with the empty body as
evidence) — refuting "a finding is emitted only if the body is non-empty". -/
theorem C2_counterexample_empty_body_still_emits :
    (Passive.execute ⟨⟨"host", 443⟩, some "token",
        some ⟨200, [], .invalid⟩, none, none⟩).findings =
      [⟨.ServiceAccountTokenAccess, .pyStr "token"⟩,
       ⟨.ServerApiAccess, .pyBytes []⟩] := rfl

/-- C2 (amended): with the token obtained, the `GET /api` step publishes
exactly one `ServerApiAccess` finding iff the response is received with
status code 200 — the body-emptiness conjunct of the success predicate is
vacuous — and when published its evidence equals the response body; a
non-200 status or a transport failure publishes none. -/
theorem C2_amended_api_step_emission (t : Target) (tok : String)
    (r : Response) (aAll aDef : HttpOutcome) :
    (countKind .ServerApiAccess
      (Passive.execute ⟨t, some tok, some r, aAll, aDef⟩).findings =
      if r.status_code = 200 then 1 else 0) ∧
    (Finding.mk .ServerApiAccess (.pyBytes r.content) ∈
        (Passive.execute ⟨t, some tok, some r, aAll, aDef⟩).findings ↔
      r.status_code = 200) ∧
    countKind .ServerApiAccess
      (Passive.execute ⟨t, some tok, none, aAll, aDef⟩).findings = 0 := by
  refine ⟨?_, ?_, ?_⟩
  · rw [count_api_finding]
    simp [stepVerdict, successVerdict_eq_status]
  · by_cases h200 : r.status_code = 200 <;>
      cases aAll <;> cases aDef <;>
        simp [passive_findings_some_token, stepFinding,
          successVerdict_eq_status, h200, successVerdict, pyNe, pyEq]
  · rw [count_api_finding]
    rfl

/-- C3: once the token is obtained the passive run attempts all three API
probes whatever each one's outcome is; in particular, with a transport
failure on the all-namespaces pod list, the default-namespace pod-list step
still runs and emits its finding exactly on its own success verdict. -/
theorem C3_all_probes_always_attempted (t : Target) (tok : String)
    (api aAll aDef : HttpOutcome) :
    (Passive.execute ⟨t, some tok, api, aAll, aDef⟩).requests =
      [reqApi t, reqPodsAll t, reqPodsDefault t] ∧
    countKind .PodListUnderDefaultNamespace
      (Passive.execute ⟨t, some tok, api, none, aDef⟩).findings =
      (if stepVerdict aDef then 1 else 0) ∧
    countKind .PodListUnderAllNamespaces
      (Passive.execute ⟨t, some tok, api, none, aDef⟩).findings = 0 :=
  ⟨passive_requests_some_token t tok api aAll aDef,
   count_pods_default_finding t tok api none aDef,
   count_pods_all_finding t tok api none aDef⟩

/-- C4 counterexample: `access_api_server` on a received status-500
response FAILS (verdict `False`, so no finding) yet writes the response
body into `api_server_evidence`, which `__init__` had set to `''` —
refuting "no evidence field is written for a step that fails". -/
theorem C4_counterexample_failed_step_writes_evidence :
    (Passive.access_api_server Passive.initState
        (some ⟨500, [102], .invalid⟩)).2 = false ∧
    (Passive.access_api_server Passive.initState
        (some ⟨500, [102], .invalid⟩)).1.api_server_evidence = .pyBytes [102] ∧
    Passive.initState.api_server_evidence = .pyStr "" :=
  ⟨rfl, rfl, rfl⟩

/-- C4 (amended): a probe step leaves the state unchanged on a TRANSPORT
failure, and a failed step never gets a finding published for it; but on
any RECEIVED response the step writes the body into its evidence field
regardless of the verdict, and the active pod-list step updates the
namespace→pod-name map on any parsed response regardless of the verdict. -/
theorem C4_amended_evidence_persistence (st : Passive.State)
    (r : Response) (t : Target) (tok : String) (api aAll aDef : HttpOutcome)
    (sta : Active.State) (sc : Nat) (content : List Nat)
    (l : List (String × String)) :
    Passive.access_api_server st none = (st, false) ∧
    Passive.get_pods_list_under_all_namespace st none = (st, false) ∧
    Passive.get_pods_list_under_default_namespace st none = (st, false) ∧
    (Passive.access_api_server st (some r)).1 =
      { st with api_server_evidence := .pyBytes r.content } ∧
    (Passive.get_pods_list_under_all_namespace st (some r)).1 =
      { st with pod_list_under_all_namespaces_evidence := .pyBytes r.content } ∧
    (Passive.get_pods_list_under_default_namespace st (some r)).1 =
      { st with pod_list_under_default_namespace_evidence := .pyBytes r.content } ∧
    countKind .ServerApiAccess
      (Passive.execute ⟨t, some tok, api, aAll, aDef⟩).findings =
      (if stepVerdict api then 1 else 0) ∧
    Active.get_pods_list_under_default_namespace sta
        (some ⟨sc, content, .items l⟩) =
      .ok ({ sta with namespaces_and_their_pod_names :=
               Active.insertPods sta.namespaces_and_their_pod_names l },
           successVerdict ⟨sc, content, .items l⟩) :=
  ⟨rfl, rfl, rfl, rfl, rfl, rfl, count_api_finding t tok api aAll aDef, rfl⟩

/-- C5 counterexample: the active hunter's pod-list probes propagate an
exception past their boundary on a received response whose body is not
JSON with an `"items"` list — `json.loads` / `parsed["items"]` sit inside a
`try` that only catches `ConnectionError`. -/
theorem C5_counterexample_json_error_escapes :
    Active.get_pods_list_under_default_namespace Active.initState
        (some ⟨403, [70], .invalid⟩) = .error .valueError ∧
    Active.get_pods_list_under_all_namespace Active.initState
        (some ⟨200, [70], .noItems⟩) = .error .keyError :=
  ⟨rfl, rfl⟩

/-- C5 (amended): the token reader and the passive probe methods return a
boolean for every outcome and never raise, and every probe method catches
transport failures as `False`; but the active JSON-parsing probe methods
raise (`ValueError`/`KeyError`) past their boundary on a received response
whose body is not JSON with an `"items"` list. -/
theorem C5_amended_error_boundaries (stp : Passive.State)
    (sta : Active.State) (out : HttpOutcome) (sc : Nat) (content : List Nat) :
    Passive.get_service_account_token stp none = (stp, false) ∧
    (Passive.access_api_server stp out).2 = stepVerdict out ∧
    (Passive.get_pods_list_under_all_namespace stp out).2 = stepVerdict out ∧
    (Passive.get_pods_list_under_default_namespace stp out).2 = stepVerdict out ∧
    Active.get_pods_list_under_all_namespace sta none = .ok (sta, false) ∧
    Active.get_pods_list_under_default_namespace sta none = .ok (sta, false) ∧
    Active.get_all_namespaces sta none = .ok (sta, false) ∧
    Active.get_pods_list_under_all_namespace sta
        (some ⟨sc, content, .invalid⟩) = .error .valueError ∧
    Active.get_pods_list_under_default_namespace sta
        (some ⟨sc, content, .invalid⟩) = .error .valueError ∧
    Active.get_all_namespaces sta (some ⟨sc, content, .invalid⟩) =
      .error .valueError := by
  refine ⟨rfl, ?_, ?_, ?_, rfl, rfl, rfl, rfl, rfl, rfl⟩ <;>
    cases out <;> rfl

/-- C6 counterexample: an active run in which the token read and both
pod-list probes succeed (status 200, parsed items) publishes NO finding at
all — the active `execute` contains no `publish_event` call — refuting "one
Finding for each of its probe steps that succeeds". -/
theorem C6_counterexample_active_success_emits_nothing :
    (Active.execute ⟨⟨"host", 6443⟩, some "token",
        some ⟨200, [123], .items [("default", "pod-a")]⟩,
        some ⟨200, [125], .items [("default", "pod-b")]⟩⟩).findings = [] ∧
    (Active.execute ⟨⟨"host", 6443⟩, some "token",
        some ⟨200, [123], .items [("default", "pod-a")]⟩,
        some ⟨200, [125], .items [("default", "pod-b")]⟩⟩).outcome =
      .ok ⟨.pyStr "", .pyStr "token", .pyStr "", .pyStr "", .pyStr "",
           .pyStr "", [("default", "pod-b")]⟩ :=
  ⟨rfl, rfl⟩

/-- C6 (amended): the passive hunter publishes exactly one finding per
successful probe step (token read, `/api`, both pod lists); the active
hunter attempts its probes but its `execute` publishes no finding in any
run. -/
theorem C6_amended_per_step_emission (ta : Target)
    (tokenFile : Option String) (pAll pDef : HttpOutcome) (t : Target)
    (tok : String) (api aAll aDef : HttpOutcome) :
    (Active.execute ⟨ta, tokenFile, pAll, pDef⟩).findings = [] ∧
    countKind .ServiceAccountTokenAccess
      (Passive.execute ⟨t, some tok, api, aAll, aDef⟩).findings = 1 ∧
    countKind .ServerApiAccess
      (Passive.execute ⟨t, some tok, api, aAll, aDef⟩).findings =
      (if stepVerdict api then 1 else 0) ∧
    countKind .PodListUnderAllNamespaces
      (Passive.execute ⟨t, some tok, api, aAll, aDef⟩).findings =
      (if stepVerdict aAll then 1 else 0) ∧
    countKind .PodListUnderDefaultNamespace
      (Passive.execute ⟨t, some tok, api, aAll, aDef⟩).findings =
      (if stepVerdict aDef then 1 else 0) :=
  ⟨active_findings_eq_nil ⟨ta, tokenFile, pAll, pDef⟩,
   count_token_finding t tok api aAll aDef,
   count_api_finding t tok api aAll aDef,
   count_pods_all_finding t tok api aAll aDef,
   count_pods_default_finding t tok api aAll aDef⟩

/-- C7 counterexample: `get_cluster_roles` and `get_all_roles` — two
distinct probe steps — both write their body into the SAME evidence field
`namespace_roles_evidence`, while `cluster_roles_evidence` and
`all_roles_evidence` keep their initial `''` — refuting "no two distinct
probe steps write to the same evidence key". -/
theorem C7_counterexample_shared_evidence_field :
    (Active.get_cluster_roles Active.initState
        (some ⟨200, [99], .invalid⟩)).1.namespace_roles_evidence =
      .pyBytes [99] ∧
    (Active.get_all_roles Active.initState
        (some ⟨200, [99], .invalid⟩)).1.namespace_roles_evidence =
      .pyBytes [99] ∧
    (Active.get_cluster_roles Active.initState
        (some ⟨200, [99], .invalid⟩)).1.cluster_roles_evidence = .pyStr "" ∧
    (Active.get_all_roles Active.initState
        (some ⟨200, [99], .invalid⟩)).1.all_roles_evidence = .pyStr "" :=
  ⟨rfl, rfl, rfl, rfl⟩

/-- C7 (amended): each passive step writes only its own distinct evidence
field; in the active hunter, the three role-listing steps all write
`namespace_roles_evidence` and only it (so `cluster_roles_evidence` and
`all_roles_evidence` are never written by any step). -/
theorem C7_amended_evidence_fields (st : Passive.State) (sta : Active.State)
    (r : Response) (data : String) :
    (Passive.get_service_account_token st (some data)).1 =
      { st with service_account_token_evidence := .pyStr data } ∧
    (Passive.access_api_server st (some r)).1 =
      { st with api_server_evidence := .pyBytes r.content } ∧
    (Passive.get_pods_list_under_all_namespace st (some r)).1 =
      { st with pod_list_under_all_namespaces_evidence := .pyBytes r.content } ∧
    (Passive.get_pods_list_under_default_namespace st (some r)).1 =
      { st with pod_list_under_default_namespace_evidence := .pyBytes r.content } ∧
    (Active.get_roles_for_namespace sta (some r)).1 =
      { sta with namespace_roles_evidence := .pyBytes r.content } ∧
    (Active.get_cluster_roles sta (some r)).1 =
      { sta with namespace_roles_evidence := .pyBytes r.content } ∧
    (Active.get_all_roles sta (some r)).1 =
      { sta with namespace_roles_evidence := .pyBytes r.content } :=
  ⟨rfl, rfl, rfl, rfl, rfl, rfl, rfl⟩

/-- C8: after an active pod-list probe parses a response whose items list
may contain several pods of one namespace, the namespace→pod-name map binds
each namespace to the name of the LAST item for it in response order
(later items overwrite earlier ones), and keeps its previous binding for
namespaces absent from the response. -/
theorem C8_namespace_map_last_seen_wins (st : Active.State) (sc : Nat)
    (content : List Nat) (l : List (String × String)) (ns : String) :
    ((Active.get_pods_list_under_default_namespace st
          (some ⟨sc, content, .items l⟩)).toOption.map
        (fun p => dictGet p.1.namespaces_and_their_pod_names ns)) =
      some (match lastPodFor ns l with
            | some n => some n
            | none => dictGet st.namespaces_and_their_pod_names ns) ∧
    ((Active.get_pods_list_under_all_namespace st
          (some ⟨sc, content, .items l⟩)).toOption.map
        (fun p => dictGet p.1.namespaces_and_their_pod_names ns)) =
      some (match lastPodFor ns l with
            | some n => some n
            | none => dictGet st.namespaces_and_their_pod_names ns) := by
  constructor <;>
    simp [Active.get_pods_list_under_default_namespace,
      Active.get_pods_list_under_all_namespace, Except.toOption,
      dictGet_insertPods]

/-- C9: the active hunter's `execute` only ever attempts GET requests (the
two pod-list probes), so no DELETE or PATCH is ever issued — in particular
none against an object the run did not create; the `delete_a_pod` /
`patch_a_pod` helpers, which would issue DELETE/PATCH, are never invoked by
`execute`. -/
theorem C9_no_mutation_requests (ta : Target) (tokenFile : Option String)
    (pAll pDef : HttpOutcome) (ns name : String) :
    ((Active.execute ⟨ta, tokenFile, pAll, pDef⟩).requests.all
        (fun r => r.method == .GET)) = true ∧
    (Active.delete_a_pod_request ta ns name).method = .DELETE ∧
    (Active.patch_a_pod_request ta ns name).method = .PATCH :=
  ⟨active_requests_all_GET ⟨ta, tokenFile, pAll, pDef⟩, rfl, rfl⟩

/-- C10: the non-empty-body conjunct of the success verdict is vacuous —
`res.content != ''` compares `bytes` with `str` and is always `True` under
Python 3 — so the verdict equals the status-code test, and a status-200
response with an empty body is classified as a success and still emits the
step's finding. -/
theorem C10_empty_body_conjunct_vacuous :
    (∀ b : List Nat, pyNe (.pyBytes b) (.pyStr "") = true) ∧
    (∀ r : Response, successVerdict r = (r.status_code == 200)) ∧
    countKind .ServerApiAccess
      (Passive.execute ⟨⟨"10.0.0.1", 6443⟩, some "tok",
          some ⟨200, [], .noItems⟩, none, none⟩).findings = 1 ∧
    successVerdict ⟨200, [], .noItems⟩ = true :=
  ⟨fun _ => rfl, successVerdict_eq_status, rfl, rfl⟩

end KubeHunter
